import Mathlib

/-!
Verification of the read-path resource viewset of djangorest-alchemy
(src/djangorest_alchemy/viewsets.py) against its specification.

The file shallowly embeds AlchemyModelViewSet and its collaborators.
viewsets.py is the only source file available; the collaborators it
imports (ManagerMixin, MultipleObjectMixin, AlchemyListSerializer,
AlchemyModelSerializer) are modelled from the specification, as marked
in the doc comment of each such definition.
-/

namespace DjangorestAlchemy

/-- JSON values, the wire representation of request and response bodies.
Numbers are restricted to naturals, which covers every number the core
produces (counts and page sizes). -/
inductive JSON where
  | null : JSON
  | num : Nat → JSON
  | str : String → JSON
  | arr : List JSON → JSON
  | obj : List (String × JSON) → JSON

/-- Lookup of a top-level key in a JSON object; none on non-objects. -/
def lookupKey (j : JSON) (k : String) : Option JSON :=
  match j with
  | .obj kvs => kvs.lookup k
  | _ => none

/-- Failures that can be raised while handling a request.
InvalidPage is the distinct invalid-page signal
(django.core.paginator.InvalidPage); notFound is the backend not-found
signal; the remaining constructors stand for arbitrary other failures of
the manager or of the serializer. -/
inductive Failure where
  | invalidPage : Failure
  | notFound : Failure
  | backendError : String → Failure
  | serializerError : String → Failure
deriving DecidableEq

/-- HTTP status constant, rest_framework.status.HTTP_400_BAD_REQUEST. -/
def HTTP_400_BAD_REQUEST : Nat := 400

/-- HTTP status constant, rest_framework.status.HTTP_404_NOT_FOUND. -/
def HTTP_404_NOT_FOUND : Nat := 404

/-- A rest_framework Response: a body and an HTTP status code. -/
structure Response where
  data : JSON
  status : Nat

/-- An inbound request, reduced to the parts the core consumes: the
query-parameter mapping (ordered, opaque to the core) and the page query
parameter. Modelled from the spec: the page parameter (section 6) arrives
already parsed, consumed only by the Pagination Resolver. -/
structure Request where
  query_params : List (String × String)
  page_param : Nat

/-- The context dictionary threaded through manager and serializer
construction; in the source it is the literal mapping holding the request. -/
structure Context where
  request : Request

/-- Modelled from the spec: the Manager interface (section 6), the
data-access collaborator produced by the Manager Provider. Its list and
retrieve queries may fail with any Failure; model_class is the opaque
entity type descriptor. The files defining concrete managers are not in
src/. -/
structure Manager (α : Type) where
  list : List (String × String) → List (String × String) → Except Failure (List α)
  retrieve : List String → List (String × String) → Except Failure α
  model_class : String

/-- Modelled from the spec: the data wrapped by a serializer is either a
result-set sequence, in the many-entity mode, or one entity. -/
inductive SData (α : Type) where
  | many : List α → SData α
  | one : α → SData α

/-- Modelled from the spec: the two serializer classes of serializers.py,
which is not in src/. AlchemyListSerializer wraps a result set or page and
is constructed with many set to true; AlchemyModelSerializer wraps one
entity. Each records the wrapped data, the entity type descriptor and the
request context it was bound to. -/
inductive Serializer (α : Type) where
  | alchemyListSerializer : SData α → String → Context → Bool → Serializer α
  | alchemyModelSerializer : SData α → String → Context → Serializer α

/-- Modelled from the spec: serialization of one result-set sequence by
the list serializer, producing the ordered sequence of per-entity
envelopes; the first per-entity failure aborts and propagates. -/
def serializeList {α : Type} (f : α → Except Failure JSON) :
    List α → Except Failure (List JSON)
  | [] => .ok []
  | x :: xs =>
    match f x with
    | .error e => .error e
    | .ok j =>
      match serializeList f xs with
      | .error e => .error e
      | .ok js => .ok (j :: js)

/-- Modelled from the spec: the data property of a serializer
(serializers.py is not in src/). The list serializer renders its wrapped
sequence as a JSON array of envelopes; the single serializer renders its
one entity. The per-entity envelope mapping f is the external collaborator
of section 4.4. The two mismatched combinations are never produced by the
orchestrator and are modelled as serializer failures. -/
def Serializer.data {α : Type} (s : Serializer α)
    (f : α → Except Failure JSON) : Except Failure JSON :=
  match s with
  | .alchemyListSerializer (.many xs) _ _ _ =>
    match serializeList f xs with
    | .error e => .error e
    | .ok js => .ok (.arr js)
  | .alchemyListSerializer (.one _) _ _ _ =>
    .error (.serializerError "list serializer over a single entity")
  | .alchemyModelSerializer (.one x) _ _ => f x
  | .alchemyModelSerializer (.many _) _ _ =>
    .error (.serializerError "single serializer over a sequence")

/-- Modelled from the spec: MultipleObjectMixin.get_page, the Pagination
Resolver (section 4.3), is not in src/. Given the full sequence, the
configured page size and the requested page number, valid pages are 1 up
to ceil(N divided by p); a request outside that range fails with the
distinct InvalidPage signal; page i is the i-th chunk, of exactly p
entities for every page but the last. -/
def get_page {α : Type} (xs : List α) (page_size : Nat) (page : Nat) :
    Except Failure (List α) :=
  let num_pages := (xs.length + page_size - 1) / page_size
  if 1 ≤ page ∧ page ≤ num_pages then
    .ok ((xs.drop ((page - 1) * page_size)).take page_size)
  else
    .error .invalidPage

/-- The rendering of the configured page size in the list envelope: the
source returns self.paginate_by itself, so an unset page size renders as
null and a set one as its number. -/
def jsonOfPageSize : Option Nat → JSON
  | none => .null
  | some p => .num p

/-- An AlchemyModelViewSet instance. The fields are the configuration the
source methods read from self. manager_factory is modelled from the spec:
ManagerMixin (section 4.1) is not in src/ and supplies
manager_factory(context) returning a Manager. paginate_by is modelled from
the spec: MultipleObjectMixin (section 4.3) holds the immutable page-size
policy, falsy or unset meaning pagination disabled. serializeEntity is
modelled from the spec: the per-entity envelope mapping of section 4.4,
delegated to the entity and backend layer, which may fail. -/
structure AlchemyModelViewSet (α : Type) where
  manager_factory : Context → Manager α
  paginate_by : Option Nat
  serializeEntity : α → Except Failure JSON

namespace AlchemyModelViewSet

/-- Embeds AlchemyModelViewSet.serializer_factory: instantiate the
appropriate serializer class, dispatching on the multiple flag. -/
def serializer_factory {α : Type} (multiple : Bool) (queryset : SData α)
    (model_class : String) (context : Context) : Serializer α :=
  if multiple then
    .alchemyListSerializer queryset model_class context true
  else
    .alchemyModelSerializer queryset model_class context

/-- Embeds AlchemyModelViewSet.get_other_pks: the default returns the
empty mapping. -/
def get_other_pks (_request : Request) : List (String × String) := []

/-- Embeds AlchemyModelViewSet.get_pks: return the list of pk values from
the keyword args, in declaration order. The ordered mapping of URI keyword
args is embedded as a list of name-value pairs. -/
def get_pks (_request : Request) (kwargs : List (String × String)) :
    List String :=
  kwargs.map Prod.snd

/-- Embeds AlchemyModelViewSet.list: obtain a manager, query the filtered
result set, compute count before pagination, paginate when a page size is
configured, recover only from InvalidPage by returning the 400 response
with empty body, serialize with multiple set to true, and wrap in the
count, page, results envelope. A truthiness test on paginate_by mirrors
the Python if on self.paginate_by, so a page size of zero also disables
pagination. Propagating failures are the error results. -/
def list {α : Type} (vs : AlchemyModelViewSet α) (request : Request) :
    Except Failure Response :=
  let mgr := vs.manager_factory ⟨request⟩
  match mgr.list (get_other_pks request) request.query_params with
  | .error e => .error e
  | .ok queryset =>
    let count := queryset.length
    let paged : Except Failure (List α) :=
      match vs.paginate_by with
      | none => .ok queryset
      | some p =>
        if p = 0 then .ok queryset
        else get_page queryset p request.page_param
    match paged with
    | .error .invalidPage => .ok ⟨.obj [], HTTP_400_BAD_REQUEST⟩
    | .error e => .error e
    | .ok pagedQueryset =>
      match (serializer_factory true (.many pagedQueryset) mgr.model_class
          ⟨request⟩).data vs.serializeEntity with
      | .error e => .error e
      | .ok results =>
        .ok ⟨.obj [("count", .num count),
                   ("page", jsonOfPageSize vs.paginate_by),
                   ("results", results)], 200⟩

/-- Embeds AlchemyModelViewSet.retrieve: obtain a manager, query one
record by the resolved key set plus auxiliary keys, serialize with
multiple set to false, and return the single envelope with the default
200 status. No failure is caught here: every one propagates as an error
result. -/
def retrieve {α : Type} (vs : AlchemyModelViewSet α) (request : Request)
    (kwargs : List (String × String)) : Except Failure Response :=
  let mgr := vs.manager_factory ⟨request⟩
  match mgr.retrieve (get_pks request kwargs) (get_other_pks request) with
  | .error e => .error e
  | .ok queryset =>
    match (serializer_factory false (.one queryset) mgr.model_class
        ⟨request⟩).data vs.serializeEntity with
    | .error e => .error e
    | .ok d => .ok ⟨d, 200⟩

end AlchemyModelViewSet

/-- Modelled from the spec: the framework boundary (sections 6 and 7)
around the orchestrator. It is not in src/: the spec states that the
not-found signal propagating out of retrieve maps to the 404 response,
that the core recovers nothing else, and that every other propagated
failure reaches the generic error handler of the transport layer, a
500-class response. Successful responses pass through unchanged. -/
def frameworkBoundary : Except Failure Response → Response
  | .ok r => r
  | .error .notFound => ⟨.obj [], HTTP_404_NOT_FOUND⟩
  | .error _ => ⟨.obj [], 500⟩

/-- A concrete per-entity envelope mapping over natural-number entities,
used to evaluate the development on concrete inputs. -/
def demoSerialize : Nat → Except Failure JSON :=
  fun e => .ok (.obj [("href", .str "http://server/api/models/"), ("id", .num e)])

/-- A concrete manager over natural-number entities whose list query
returns the given result set and whose retrieve query succeeds on the
key set containing exactly the string 1. -/
def demoManager (xs : List Nat) : Manager Nat :=
  ⟨fun _ _ => .ok xs,
   fun pks _ => if pks = ["1"] then .ok 1 else .error .notFound,
   "DemoModel"⟩

/-- A concrete viewset over natural-number entities with a chosen page
size policy and backing result set. -/
def demoViewset (pb : Option Nat) (xs : List Nat) : AlchemyModelViewSet Nat :=
  ⟨fun _ => demoManager xs, pb, demoSerialize⟩

/-- A concrete manager whose retrieve query always signals not-found. -/
def notFoundManager : Manager Nat :=
  ⟨fun _ _ => .ok [], fun _ _ => .error .notFound, "DemoModel"⟩

/-- A concrete viewset whose manager always signals not-found on retrieve. -/
def notFoundViewset : AlchemyModelViewSet Nat :=
  ⟨fun _ => notFoundManager, none, demoSerialize⟩

/-- A concrete manager whose queries fail with a backend error. -/
def failingManager : Manager Nat :=
  ⟨fun _ _ => .error (.backendError "boom"),
   fun _ _ => .error (.backendError "boom"), "DemoModel"⟩

/-- A concrete viewset whose manager fails with a backend error. -/
def failingViewset : AlchemyModelViewSet Nat :=
  ⟨fun _ => failingManager, none, demoSerialize⟩

/-- A concrete viewset whose per-entity envelope mapping always fails. -/
def failingSerializeViewset (xs : List Nat) : AlchemyModelViewSet Nat :=
  ⟨fun _ => demoManager xs, none, fun _ => .error (.serializerError "bad entity")⟩

/-- A concrete request carrying one query parameter and requesting page 1. -/
def demoRequest : Request := ⟨[("type", "X")], 1⟩

/-- A concrete request with no query parameters requesting the given page. -/
def demoRequestPage (n : Nat) : Request := ⟨[], n⟩

/-- The JSON object rendering of a query-parameter mapping, value for
value; injective on the mapping, so its appearance in a response exhibits
the mapping verbatim. -/
def paramsJSON (ps : List (String × String)) : JSON :=
  .obj (ps.map fun kv => (kv.1, .str kv.2))

/-- A manager over entities that are themselves query-parameter mappings:
its list query echoes back, as the single result entity, exactly the
filters argument it received. -/
def echoManager : Manager (List (String × String)) :=
  ⟨fun _ filters => .ok [filters], fun _ _ => .error .notFound, "EchoModel"⟩

/-- A viewset around echoManager whose envelope mapping renders the echoed
filters, making the filters received by the manager observable in the
response. -/
def echoViewset : AlchemyModelViewSet (List (String × String)) :=
  ⟨fun _ => echoManager, none, fun e => .ok (paramsJSON e)⟩

/-- Serialization of a sequence succeeds with one envelope per entity:
the output length equals the input length. -/
theorem serializeList_length {α : Type} (f : α → Except Failure JSON) :
    ∀ (xs : List α) (js : List JSON),
      serializeList f xs = .ok js → js.length = xs.length := by
  intro xs
  induction xs with
  | nil =>
    intro js h
    simp only [serializeList] at h
    cases h
    rfl
  | cons x xs ih =>
    intro js h
    simp only [serializeList] at h
    cases hfx : f x with
    | error e => rw [hfx] at h; exact absurd h (by simp)
    | ok j =>
      rw [hfx] at h
      cases hrest : serializeList f xs with
      | error e => rw [hrest] at h; exact absurd h (by simp)
      | ok js2 =>
        rw [hrest] at h
        cases h
        simp [ih js2 hrest]

/-- C5: get_pks returns exactly the values of the ordered keyword-arg
mapping in declaration order, for any entity type-independent request; a
two-segment path such as models pk1 childmodel pk2 yields the pair of pk
values in order, and the empty mapping of a root collection path yields
the empty sequence rather than being rejected. -/
theorem get_pks_returns_values_in_declaration_order :
    (∀ (req : Request) (kwargs : List (String × String)),
        AlchemyModelViewSet.get_pks req kwargs = kwargs.map Prod.snd)
    ∧ (∀ (req : Request) (k1 v1 k2 v2 : String),
        AlchemyModelViewSet.get_pks req [(k1, v1), (k2, v2)] = [v1, v2])
    ∧ (∀ (req : Request), AlchemyModelViewSet.get_pks req [] = []) :=
  ⟨fun _ _ => rfl, fun _ _ _ _ _ => rfl, fun _ => rfl⟩

/-- C9: serializer_factory dispatches solely on the multiple flag: with
multiple true it instantiates the list serializer, constructed with many
set to true, wrapping the given data and bound to the given entity type
descriptor and context; with multiple false it instantiates the
single-object serializer wrapping the given data with the same bindings.
This holds for every data argument, so the dispatch never depends on it. -/
theorem serializer_factory_dispatches_on_multiple :
    (∀ (α : Type) (d : SData α) (mc : String) (ctx : Context),
        AlchemyModelViewSet.serializer_factory true d mc ctx =
          Serializer.alchemyListSerializer d mc ctx true)
    ∧ (∀ (α : Type) (d : SData α) (mc : String) (ctx : Context),
        AlchemyModelViewSet.serializer_factory false d mc ctx =
          Serializer.alchemyModelSerializer d mc ctx) :=
  ⟨fun _ _ _ _ => rfl, fun _ _ _ _ => rfl⟩

/-- C8: the filters mapping handed to the list query of the manager is
exactly the query-parameter mapping of the request, passed through
verbatim. The echo viewset reflects the filters its manager receives into
the response unchanged, so for every request the response exhibits
precisely request.query_params: no key is added, removed or renamed and
no value changed, and the orchestrator never inspects the mapping. -/
theorem list_passes_query_params_verbatim :
    ∀ (req : Request),
      AlchemyModelViewSet.list echoViewset req =
        .ok ⟨.obj [("count", .num 1), ("page", JSON.null),
                   ("results", .arr [paramsJSON req.query_params])], 200⟩ :=
  fun _ => rfl

/-- C2: when pagination is enabled and resolving the requested page fails
with the distinct invalid-page signal, list returns the response with
status 400 and the empty JSON object as body; and since the same response
comes out under every per-entity envelope mapping whatsoever,
serialization is never consulted on that path. -/
theorem list_invalid_page_returns_400_empty :
    ∀ (α : Type) (vs : AlchemyModelViewSet α) (req : Request)
      (qs : List α) (p : Nat),
      (vs.manager_factory ⟨req⟩).list (AlchemyModelViewSet.get_other_pks req)
          req.query_params = .ok qs →
      vs.paginate_by = some p →
      p ≠ 0 →
      get_page qs p req.page_param = .error .invalidPage →
      AlchemyModelViewSet.list vs req = .ok ⟨.obj [], HTTP_400_BAD_REQUEST⟩
      ∧ ∀ (f : α → Except Failure JSON),
          AlchemyModelViewSet.list { vs with serializeEntity := f } req =
            .ok ⟨.obj [], HTTP_400_BAD_REQUEST⟩ := by
  intro α vs req qs p hq hp hp0 hip
  constructor
  · simp only [AlchemyModelViewSet.list, hq, hp, if_neg hp0, hip]
  · intro f
    simp only [AlchemyModelViewSet.list] at *
    simp only [hq, hp, if_neg hp0, hip]

/-- C2 witness: a result set of three entities with page size two has two
valid pages, so requesting page five yields the 400 response with empty
body. -/
theorem list_invalid_page_returns_400_empty_witness :
    AlchemyModelViewSet.list (demoViewset (some 2) [1, 2, 3]) (demoRequestPage 5) =
      .ok ⟨.obj [], HTTP_400_BAD_REQUEST⟩ :=
  (list_invalid_page_returns_400_empty Nat (demoViewset (some 2) [1, 2, 3])
    (demoRequestPage 5) [1, 2, 3] 2 rfl rfl (by decide) rfl).1

/-- C4: when the manager signals not-found for the resolved key set,
retrieve propagates that distinct failure unmodified; at the framework
boundary it maps to the 404 response. The same propagated failure comes
out under every per-entity envelope mapping, so the orchestrator performs
no existence check or search of its own on that path, it only forwards
what the manager signalled. -/
theorem retrieve_not_found_maps_to_404 :
    ∀ (α : Type) (vs : AlchemyModelViewSet α) (req : Request)
      (kwargs : List (String × String)),
      (vs.manager_factory ⟨req⟩).retrieve
          (AlchemyModelViewSet.get_pks req kwargs)
          (AlchemyModelViewSet.get_other_pks req) = .error .notFound →
      AlchemyModelViewSet.retrieve vs req kwargs = .error .notFound
      ∧ (frameworkBoundary (AlchemyModelViewSet.retrieve vs req kwargs)).status =
          HTTP_404_NOT_FOUND
      ∧ ∀ (f : α → Except Failure JSON),
          AlchemyModelViewSet.retrieve { vs with serializeEntity := f } req kwargs =
            .error .notFound := by
  intro α vs req kwargs hnf
  refine ⟨?_, ?_, ?_⟩
  · simp only [AlchemyModelViewSet.retrieve, hnf]
  · simp only [AlchemyModelViewSet.retrieve, hnf, frameworkBoundary]
  · intro f
    simp only [AlchemyModelViewSet.retrieve] at *
    simp only [hnf]

/-- C4 witness: the concrete always-not-found viewset propagates the
not-found signal out of retrieve and the boundary maps it to status 404. -/
theorem retrieve_not_found_maps_to_404_witness :
    AlchemyModelViewSet.retrieve notFoundViewset demoRequest [("pk", "9")] =
        .error .notFound
    ∧ (frameworkBoundary
        (AlchemyModelViewSet.retrieve notFoundViewset demoRequest [("pk", "9")])).status =
          HTTP_404_NOT_FOUND :=
  ⟨(retrieve_not_found_maps_to_404 Nat notFoundViewset demoRequest
      [("pk", "9")] rfl).1,
   (retrieve_not_found_maps_to_404 Nat notFoundViewset demoRequest
      [("pk", "9")] rfl).2.1⟩

/-- C3: the orchestrator recovers locally only from the invalid-page
failure of the pagination step inside list; every other failure raised by
the manager or by the serializer, during list or retrieve, propagates
unmodified. Conjuncts: a failure of the list query of the manager, of any
kind including one shaped like the invalid-page signal, propagates out of
list; a serializer failure propagates out of list, with pagination
disabled or after a successful pagination step; a failure of the retrieve
query of the manager, of any kind, propagates out of retrieve; and a
serializer failure propagates out of retrieve. -/
theorem only_invalid_page_is_recovered :
    (∀ (α : Type) (vs : AlchemyModelViewSet α) (req : Request) (e : Failure),
        (vs.manager_factory ⟨req⟩).list (AlchemyModelViewSet.get_other_pks req)
            req.query_params = .error e →
        AlchemyModelViewSet.list vs req = .error e)
    ∧ (∀ (α : Type) (vs : AlchemyModelViewSet α) (req : Request)
          (qs : List α) (e : Failure),
        (vs.manager_factory ⟨req⟩).list (AlchemyModelViewSet.get_other_pks req)
            req.query_params = .ok qs →
        vs.paginate_by = none →
        serializeList vs.serializeEntity qs = .error e →
        AlchemyModelViewSet.list vs req = .error e)
    ∧ (∀ (α : Type) (vs : AlchemyModelViewSet α) (req : Request)
          (qs pq : List α) (p : Nat) (e : Failure),
        (vs.manager_factory ⟨req⟩).list (AlchemyModelViewSet.get_other_pks req)
            req.query_params = .ok qs →
        vs.paginate_by = some p →
        p ≠ 0 →
        get_page qs p req.page_param = .ok pq →
        serializeList vs.serializeEntity pq = .error e →
        AlchemyModelViewSet.list vs req = .error e)
    ∧ (∀ (α : Type) (vs : AlchemyModelViewSet α) (req : Request)
          (kwargs : List (String × String)) (e : Failure),
        (vs.manager_factory ⟨req⟩).retrieve
            (AlchemyModelViewSet.get_pks req kwargs)
            (AlchemyModelViewSet.get_other_pks req) = .error e →
        AlchemyModelViewSet.retrieve vs req kwargs = .error e)
    ∧ (∀ (α : Type) (vs : AlchemyModelViewSet α) (req : Request)
          (kwargs : List (String × String)) (x : α) (e : Failure),
        (vs.manager_factory ⟨req⟩).retrieve
            (AlchemyModelViewSet.get_pks req kwargs)
            (AlchemyModelViewSet.get_other_pks req) = .ok x →
        vs.serializeEntity x = .error e →
        AlchemyModelViewSet.retrieve vs req kwargs = .error e) := by
  refine ⟨?_, ?_, ?_, ?_, ?_⟩
  · intro α vs req e hq
    simp only [AlchemyModelViewSet.list, hq]
  · intro α vs req qs e hq hpb hser
    simp only [AlchemyModelViewSet.list, hq, hpb,
      AlchemyModelViewSet.serializer_factory, if_pos, Serializer.data, hser]
  · intro α vs req qs pq p e hq hpb hp0 hpg hser
    simp only [AlchemyModelViewSet.list, hq, hpb, if_neg hp0, hpg,
      AlchemyModelViewSet.serializer_factory, if_pos, Serializer.data, hser]
  · intro α vs req kwargs e hq
    simp only [AlchemyModelViewSet.retrieve, hq]
  · intro α vs req kwargs x e hq hser
    simp [AlchemyModelViewSet.retrieve, hq,
      AlchemyModelViewSet.serializer_factory, Serializer.data, hser]

/-- C3 witness: concrete instances of each propagation conjunct: a backend
error of the list query propagates out of list; a serializer error
propagates out of list; a backend error of the retrieve query propagates
out of retrieve; and a serializer error propagates out of retrieve. -/
theorem only_invalid_page_is_recovered_witness :
    AlchemyModelViewSet.list failingViewset demoRequest =
        .error (.backendError "boom")
    ∧ AlchemyModelViewSet.list (failingSerializeViewset [7]) demoRequest =
        .error (.serializerError "bad entity")
    ∧ AlchemyModelViewSet.retrieve failingViewset demoRequest [("pk", "1")] =
        .error (.backendError "boom")
    ∧ AlchemyModelViewSet.retrieve (failingSerializeViewset [7]) demoRequest
        [("pk", "1")] = .error (.serializerError "bad entity") :=
  ⟨only_invalid_page_is_recovered.1 Nat failingViewset demoRequest
      (.backendError "boom") rfl,
   only_invalid_page_is_recovered.2.1 Nat (failingSerializeViewset [7])
      demoRequest [7] (.serializerError "bad entity") rfl rfl rfl,
   only_invalid_page_is_recovered.2.2.2.1 Nat failingViewset demoRequest
      [("pk", "1")] (.backendError "boom") rfl,
   only_invalid_page_is_recovered.2.2.2.2 Nat (failingSerializeViewset [7])
      demoRequest [("pk", "1")] 1 (.serializerError "bad entity") rfl rfl⟩

/-- Inversion of the list operation on successful results: a successful
list response is either the 400 invalid-page response with empty body, or
the 200 envelope built from some manager result set, some pagination
outcome and some serialized page, with count taken from the unpaginated
result set and page taken from the configured page size. -/
theorem list_ok_inversion {α : Type} (vs : AlchemyModelViewSet α)
    (req : Request) (resp : Response)
    (hr : AlchemyModelViewSet.list vs req = .ok resp) :
    resp = ⟨.obj [], HTTP_400_BAD_REQUEST⟩
    ∨ ∃ qs pq js,
        (vs.manager_factory ⟨req⟩).list (AlchemyModelViewSet.get_other_pks req)
            req.query_params = .ok qs
        ∧ (((vs.paginate_by = none ∨ vs.paginate_by = some 0) ∧ pq = qs)
            ∨ ∃ p, vs.paginate_by = some p ∧ p ≠ 0
                ∧ get_page qs p req.page_param = .ok pq)
        ∧ serializeList vs.serializeEntity pq = .ok js
        ∧ resp = ⟨.obj [("count", .num qs.length),
                       ("page", jsonOfPageSize vs.paginate_by),
                       ("results", .arr js)], 200⟩ := by
  simp only [AlchemyModelViewSet.list] at hr
  cases hq : (vs.manager_factory ⟨req⟩).list (AlchemyModelViewSet.get_other_pks req)
      req.query_params with
  | error e => rw [hq] at hr; simp at hr
  | ok qs =>
    rw [hq] at hr
    rcases hpb : vs.paginate_by with _ | p
    · rw [hpb] at hr
      simp [AlchemyModelViewSet.serializer_factory, Serializer.data] at hr
      cases hser : serializeList vs.serializeEntity qs with
      | error e => rw [hser] at hr; simp at hr
      | ok js =>
        rw [hser] at hr
        simp at hr
        exact Or.inr ⟨qs, qs, js, rfl, Or.inl ⟨Or.inl rfl, rfl⟩, hser,
          hr.symm⟩
    · rw [hpb] at hr
      by_cases hp0 : p = 0
      · subst hp0
        simp [AlchemyModelViewSet.serializer_factory, Serializer.data] at hr
        cases hser : serializeList vs.serializeEntity qs with
        | error e => rw [hser] at hr; simp at hr
        | ok js =>
          rw [hser] at hr
          simp at hr
          exact Or.inr ⟨qs, qs, js, rfl, Or.inl ⟨Or.inr rfl, rfl⟩, hser,
            hr.symm⟩
      · simp [hp0] at hr
        cases hpg : get_page qs p req.page_param with
        | error e =>
          rw [hpg] at hr
          cases e with
          | invalidPage =>
            simp at hr
            exact Or.inl hr.symm
          | notFound => simp at hr
          | backendError m => simp at hr
          | serializerError m => simp at hr
        | ok pq =>
          rw [hpg] at hr
          simp [AlchemyModelViewSet.serializer_factory, Serializer.data] at hr
          cases hser : serializeList vs.serializeEntity pq with
          | error e => rw [hser] at hr; simp at hr
          | ok js =>
            rw [hser] at hr
            simp at hr
            exact Or.inr ⟨qs, pq, js, rfl, Or.inr ⟨p, rfl, hp0, hpg⟩, hser,
              hr.symm⟩

/-- Pagination over the empty sequence always fails: with a nonzero page
size there are zero valid pages, so every requested page is invalid. -/
theorem get_page_nil {α : Type} (p n : Nat) (hp : p ≠ 0) :
    get_page ([] : List α) p n = .error .invalidPage := by
  have h0 : ((List.length ([] : List α)) + p - 1) / p = 0 := by
    simp only [List.length_nil]
    exact Nat.div_eq_of_lt (by omega)
  simp only [get_page, h0]
  rw [if_neg (by omega : ¬(1 ≤ n ∧ n ≤ 0))]

/-- C1: for every list request whose manager query yields a result set qs,
any successful 200 envelope reports count equal to the length of qs, the
unpaginated total: the page size and the requested page number influence
only which branch succeeds, never the reported count. -/
theorem list_count_is_unpaginated_total :
    ∀ (α : Type) (vs : AlchemyModelViewSet α) (req : Request) (qs : List α)
      (resp : Response),
      (vs.manager_factory ⟨req⟩).list (AlchemyModelViewSet.get_other_pks req)
          req.query_params = .ok qs →
      AlchemyModelViewSet.list vs req = .ok resp →
      resp.status = 200 →
      lookupKey resp.data "count" = some (.num qs.length) := by
  intro α vs req qs resp hq hr hs
  rcases list_ok_inversion vs req resp hr with h400 |
    ⟨qs2, pq, js, hq2, hpag, hser, hresp⟩
  · rw [h400] at hs
    simp [HTTP_400_BAD_REQUEST] at hs
  · have hqs : qs2 = qs := by
      have h := hq2.symm.trans hq
      injection h
    subst hqs
    rw [hresp]
    rfl

/-- C1 witness: a result set of three entities with page size two,
requesting the valid page one, reports count three even though the page
holds only two results. -/
theorem list_count_is_unpaginated_total_witness :
    lookupKey (JSON.obj [("count", .num 3), ("page", .num 2),
      ("results", .arr
        [.obj [("href", .str "http://server/api/models/"), ("id", .num 1)],
         .obj [("href", .str "http://server/api/models/"), ("id", .num 2)]])])
      "count" = some (.num 3) :=
  list_count_is_unpaginated_total Nat (demoViewset (some 2) [1, 2, 3])
    (demoRequestPage 1) [1, 2, 3]
    ⟨.obj [("count", .num 3), ("page", .num 2),
      ("results", .arr
        [.obj [("href", .str "http://server/api/models/"), ("id", .num 1)],
         .obj [("href", .str "http://server/api/models/"), ("id", .num 2)]])],
      200⟩ rfl rfl rfl

/-- C6: when the configured page size is unset or falsy, pagination is
skipped: list succeeds with the envelope holding every one of the N
serialized entities of the result set, with exactly one envelope per
entity, and the page field renders the configured value, null when the
page size is unset. -/
theorem list_no_pagination_passthrough :
    ∀ (α : Type) (vs : AlchemyModelViewSet α) (req : Request) (qs : List α)
      (js : List JSON),
      (vs.manager_factory ⟨req⟩).list (AlchemyModelViewSet.get_other_pks req)
          req.query_params = .ok qs →
      (vs.paginate_by = none ∨ vs.paginate_by = some 0) →
      serializeList vs.serializeEntity qs = .ok js →
      AlchemyModelViewSet.list vs req =
        .ok ⟨.obj [("count", .num qs.length),
                   ("page", jsonOfPageSize vs.paginate_by),
                   ("results", .arr js)], 200⟩
      ∧ js.length = qs.length
      ∧ (vs.paginate_by = none → jsonOfPageSize vs.paginate_by = .null) := by
  intro α vs req qs js hq hfalsy hser
  refine ⟨?_, serializeList_length vs.serializeEntity qs js hser, ?_⟩
  · rcases hfalsy with h | h
    · simp [AlchemyModelViewSet.list, hq, h,
        AlchemyModelViewSet.serializer_factory, Serializer.data, hser]
    · simp [AlchemyModelViewSet.list, hq, h,
        AlchemyModelViewSet.serializer_factory, Serializer.data, hser]
  · intro h
    rw [h]
    rfl

/-- C6 witness: with no configured page size, a result set of two entities
comes back whole, count two, page null, two result envelopes. -/
theorem list_no_pagination_passthrough_witness :
    AlchemyModelViewSet.list (demoViewset none [4, 5]) demoRequest =
      .ok ⟨.obj [("count", .num 2), ("page", JSON.null),
        ("results", .arr
          [.obj [("href", .str "http://server/api/models/"), ("id", .num 4)],
           .obj [("href", .str "http://server/api/models/"), ("id", .num 5)]])],
        200⟩ :=
  (list_no_pagination_passthrough Nat (demoViewset none [4, 5]) demoRequest
    [4, 5]
    [.obj [("href", .str "http://server/api/models/"), ("id", .num 4)],
     .obj [("href", .str "http://server/api/models/"), ("id", .num 5)]]
    rfl (Or.inl rfl) rfl).1

/-- C7: every successful 200 list response carries the three keys count,
page and results in its body, and a reported count of zero forces results
to be the empty array, the keys still present. -/
theorem list_envelope_keys_always_present :
    ∀ (α : Type) (vs : AlchemyModelViewSet α) (req : Request)
      (resp : Response),
      AlchemyModelViewSet.list vs req = .ok resp →
      resp.status = 200 →
      ((lookupKey resp.data "count").isSome = true
       ∧ (lookupKey resp.data "page").isSome = true
       ∧ (lookupKey resp.data "results").isSome = true)
      ∧ (lookupKey resp.data "count" = some (.num 0) →
          lookupKey resp.data "results" = some (.arr [])) := by
  intro α vs req resp hr hs
  rcases list_ok_inversion vs req resp hr with h400 |
    ⟨qs, pq, js, hq, hpag, hser, hresp⟩
  · rw [h400] at hs
    simp [HTTP_400_BAD_REQUEST] at hs
  · constructor
    · rw [hresp]
      exact ⟨rfl, rfl, rfl⟩
    · intro hc
      have hcount : lookupKey resp.data "count" = some (.num qs.length) := by
        rw [hresp]
        rfl
      have h1 := hcount.symm.trans hc
      injection h1 with h2
      injection h2 with h3
      have hqs : qs = [] := List.length_eq_zero.mp h3
      subst hqs
      have hpq : pq = ([] : List α) := by
        rcases hpag with ⟨_, hpqe⟩ | ⟨p, hp, hp0, hpg⟩
        · exact hpqe
        · rw [get_page_nil p req.page_param hp0] at hpg
          exact absurd hpg (by simp)
      subst hpq
      simp only [serializeList] at hser
      have hjs : ([] : List JSON) = js := by injection hser
      subst hjs
      rw [hresp]
      rfl

/-- C7 witness: an empty result set with pagination disabled yields the
200 envelope with count zero, page null and the empty results array, all
three keys present. -/
theorem list_envelope_keys_always_present_witness :
    ((lookupKey (JSON.obj [("count", .num 0), ("page", JSON.null),
        ("results", .arr [])]) "count").isSome = true
     ∧ (lookupKey (JSON.obj [("count", .num 0), ("page", JSON.null),
        ("results", .arr [])]) "page").isSome = true
     ∧ (lookupKey (JSON.obj [("count", .num 0), ("page", JSON.null),
        ("results", .arr [])]) "results").isSome = true)
    ∧ (lookupKey (JSON.obj [("count", .num 0), ("page", JSON.null),
        ("results", .arr [])]) "count" = some (.num 0) →
       lookupKey (JSON.obj [("count", .num 0), ("page", JSON.null),
        ("results", .arr [])]) "results" = some (.arr [])) :=
  list_envelope_keys_always_present Nat (demoViewset none []) demoRequest
    ⟨.obj [("count", .num 0), ("page", JSON.null), ("results", .arr [])],
      200⟩ rfl rfl

/-- C10: in every successful 200 list response the page field renders the
configured page size of the viewset, not the requested page number; hence
two successful requests against the same viewset, whatever pages they
requested, report the identical page value. -/
theorem list_page_field_is_configured_page_size :
    ∀ (α : Type) (vs : AlchemyModelViewSet α) (req : Request)
      (resp : Response),
      AlchemyModelViewSet.list vs req = .ok resp →
      resp.status = 200 →
      lookupKey resp.data "page" = some (jsonOfPageSize vs.paginate_by)
      ∧ ∀ (req2 : Request) (resp2 : Response),
          AlchemyModelViewSet.list vs req2 = .ok resp2 →
          resp2.status = 200 →
          lookupKey resp.data "page" = lookupKey resp2.data "page" := by
  intro α vs req resp hr hs
  have key : ∀ (r : Request) (rp : Response),
      AlchemyModelViewSet.list vs r = .ok rp → rp.status = 200 →
      lookupKey rp.data "page" = some (jsonOfPageSize vs.paginate_by) := by
    intro r rp h hst
    rcases list_ok_inversion vs r rp h with h400 |
      ⟨qs2, pq, js, hq2, hpag, hser, hresp⟩
    · rw [h400] at hst
      simp [HTTP_400_BAD_REQUEST] at hst
    · rw [hresp]
      rfl
  exact ⟨key req resp hr hs,
    fun req2 resp2 hr2 hs2 =>
      (key req resp hr hs).trans (key req2 resp2 hr2 hs2).symm⟩

/-- C10 witness: pages one and two of the same three-entity collection
with page size two both report page equal to two, the configured page
size, despite the different requested page numbers. -/
theorem list_page_field_is_configured_page_size_witness :
    lookupKey (JSON.obj [("count", .num 3), ("page", .num 2),
      ("results", .arr
        [.obj [("href", .str "http://server/api/models/"), ("id", .num 1)],
         .obj [("href", .str "http://server/api/models/"), ("id", .num 2)]])])
      "page" = some (.num 2)
    ∧ lookupKey (JSON.obj [("count", .num 3), ("page", .num 2),
        ("results", .arr
          [.obj [("href", .str "http://server/api/models/"), ("id", .num 1)],
           .obj [("href", .str "http://server/api/models/"), ("id", .num 2)]])])
        "page" =
      lookupKey (JSON.obj [("count", .num 3), ("page", .num 2),
        ("results", .arr
          [.obj [("href", .str "http://server/api/models/"), ("id", .num 3)]])])
        "page" :=
  ⟨(list_page_field_is_configured_page_size Nat (demoViewset (some 2) [1, 2, 3])
      (demoRequestPage 1)
      ⟨.obj [("count", .num 3), ("page", .num 2),
        ("results", .arr
          [.obj [("href", .str "http://server/api/models/"), ("id", .num 1)],
           .obj [("href", .str "http://server/api/models/"), ("id", .num 2)]])],
        200⟩ rfl rfl).1,
   (list_page_field_is_configured_page_size Nat (demoViewset (some 2) [1, 2, 3])
      (demoRequestPage 1)
      ⟨.obj [("count", .num 3), ("page", .num 2),
        ("results", .arr
          [.obj [("href", .str "http://server/api/models/"), ("id", .num 1)],
           .obj [("href", .str "http://server/api/models/"), ("id", .num 2)]])],
        200⟩ rfl rfl).2
      (demoRequestPage 2)
      ⟨.obj [("count", .num 3), ("page", .num 2),
        ("results", .arr
          [.obj [("href", .str "http://server/api/models/"), ("id", .num 3)]])],
        200⟩ rfl rfl⟩

end DjangorestAlchemy
